import Mathlib

/-!
Shallow embedding of the signal-generation and risk-sizing engine of the
investment-bot repository (src/src/...), over exact rational arithmetic.

Modelling conventions:
* Python/pandas floats are modelled by `ℚ`.  A pandas/numpy value that is
  NaN or ±inf (e.g. produced by dividing by a zero float) is modelled by
  `none : Option ℚ`; arithmetic on an undefined operand stays undefined,
  exactly as NaN propagates.
* A Python exception (`ZeroDivisionError` from dividing a plain float by
  zero) is modelled by `Except PyError`.
* `np.sqrt` (used for the rolling standard deviation and the √252
  annualisation factor) is irrational, so it is carried as an
  uninterpreted parameter `sqrtF : ℚ → ℚ`; no claim below depends on its
  numeric values, only on the data flow around it.
* `MomentumAnalyzer.calculate_hurst_exponent` (log-log least-squares fit,
  `np.polyfit`/`np.log`) is likewise carried as an uninterpreted parameter
  `hurstE : List ℚ → ℚ`; every claim uses the Hurst exponent as an opaque
  real input.
-/

/-- Python exception kinds relevant to the embedded code paths. -/
inductive PyError where
  | zeroDivision
deriving DecidableEq, Repr

/-! ## Rolling statistics (pandas semantics, value at the last index) -/

/-- Embeds `Series.pct_change()`: entry 0 is NaN, entry i (i ≥ 1) is
`(p_i - p_{i-1}) / p_{i-1}`; a zero previous price makes the float
quotient non-finite, modelled as `none`. -/
def pct_change (prices : List ℚ) : List (Option ℚ) :=
  match prices with
  | [] => []
  | _ :: rest =>
    none :: List.zipWith
      (fun prev cur => if prev = 0 then none else some ((cur - prev) / prev))
      prices rest

/-- The trailing window of width `w` ending at the last index, defined
(all entries non-NaN) only when the series has at least `w` entries;
mirrors pandas `rolling(w)` with its default `min_periods = w`. -/
def windowLast (w : Nat) (xs : List (Option ℚ)) : Option (List ℚ) :=
  if w = 0 ∨ xs.length < w then none
  else (xs.drop (xs.length - w)).mapM (fun x => x)

/-- Embeds `Series.rolling(w).mean().iloc[-1]`. -/
def rollingMeanLast (w : Nat) (xs : List (Option ℚ)) : Option ℚ :=
  (windowLast w xs).map (fun ys => ys.sum / (ys.length : ℚ))

/-- Embeds the square of `Series.rolling(w).std().iloc[-1]`: the sample
variance (ddof = 1) of the trailing window.  pandas yields NaN for
`w < 2` (the ddof-1 divisor vanishes), modelled as `none`.  The code's
standard deviation is `sqrtF` of this value. -/
def rollingVarLast (w : Nat) (xs : List (Option ℚ)) : Option ℚ :=
  if w < 2 then none
  else
    (windowLast w xs).map (fun ys =>
      let m := ys.sum / (ys.length : ℚ)
      (ys.map (fun x => (x - m) ^ 2)).sum / ((ys.length : ℚ) - 1))

/-! ## analysis/momentum.py — MomentumAnalyzer.calculate_signal -/

/-- Embeds `returns.rolling(volatility_window).std() * np.sqrt(252)` at the
last index (`volatility.iloc[-1]`). -/
def momentum_volatility (sqrtF : ℚ → ℚ) (volatility_window : Nat)
    (prices : List ℚ) : Option ℚ :=
  (rollingVarLast volatility_window (pct_change prices)).map
    (fun v => sqrtF v * sqrtF 252)

/-- Embeds `adjusted_signal = momentum_signal.iloc[-1] / volatility.iloc[-1]`:
the float quotient is non-finite (NaN/inf) when the volatility is exactly
zero, modelled as `none`. -/
def momentum_adjusted (sqrtF : ℚ → ℚ) (momentum_window volatility_window : Nat)
    (prices : List ℚ) : Option ℚ :=
  match rollingMeanLast momentum_window (pct_change prices),
        momentum_volatility sqrtF volatility_window prices with
  | some m, some v => if v = 0 then none else some (m / v)
  | _, _ => none

/-- Embeds `MomentumAnalyzer.calculate_signal`, returning the tuple
`(adjusted_signal, volatility.iloc[-1], hurst)`. -/
def momentum_calculate_signal (sqrtF : ℚ → ℚ) (hurstE : List ℚ → ℚ)
    (momentum_window volatility_window : Nat) (prices : List ℚ) :
    Option ℚ × Option ℚ × ℚ :=
  (momentum_adjusted sqrtF momentum_window volatility_window prices,
   momentum_volatility sqrtF volatility_window prices,
   hurstE prices)

/-! ## analysis/mean_reversion.py — MeanReversionAnalyzer.get_signal -/

/-- Embeds `MeanReversionAnalyzer.get_signal`: z-score of the latest price
against the rolling mean/std over `window`, negated.  A zero rolling std
makes the float z-score non-finite, modelled as `none`.  The
`zscore_entry` parameter is carried exactly as in the source signature
(where it is never read in the body). -/
def mean_rev_get_signal (sqrtF : ℚ → ℚ) (window : Nat) (prices : List ℚ)
    (zscore_entry : ℚ) : Option ℚ :=
  match prices.getLast?,
        rollingMeanLast window (prices.map some),
        (rollingVarLast window (prices.map some)).map sqrtF with
  | some p, some ma, some std =>
      if std = 0 then none else some (-((p - ma) / std))
  | _, _, _ => none

/-! ## analysis/signal_combiner.py — SignalCombiner.calculate_combined_signal -/

/-- The factor `(hurst if hurst > 0.5 else 1 - hurst)` applied to the
momentum weight. -/
def hurst_momentum_factor (hurst : ℚ) : ℚ :=
  if hurst > 1/2 then hurst else 1 - hurst

/-- The factor `(1 - hurst if hurst > 0.5 else hurst)` applied to the
mean-reversion weight. -/
def hurst_mean_rev_factor (hurst : ℚ) : ℚ :=
  if hurst > 1/2 then 1 - hurst else hurst

/-- Embeds `SignalCombiner.calculate_combined_signal`.  The constructor's
analyzer objects become the `sqrtF`/`hurstE`/window parameters; the
`symbol_data` dict contributes the two weights; `risk_multiplier` and
`momentum_threshold` are the keyword parameters (defaults 1.2 and 0.02).
`get_signal` is called with its default `zscore_entry = -1.5`, as in the
source.  If either underlying signal is undefined the combined float is
NaN, modelled as `none` (the YPF comparison on a NaN float is false, and
the returned value is NaN either way). -/
def calculate_combined_signal (sqrtF : ℚ → ℚ) (hurstE : List ℚ → ℚ)
    (momentum_window volatility_window mean_rev_window : Nat)
    (prices : List ℚ) (symbol : String)
    (momentum_weight mean_rev_weight risk_multiplier momentum_threshold : ℚ) :
    Option ℚ :=
  match momentum_adjusted sqrtF momentum_window volatility_window prices,
        mean_rev_get_signal sqrtF mean_rev_window prices (-(3/2)) with
  | some momentum_signal, some mean_rev_signal =>
      let hurst := hurstE prices
      let wm := momentum_weight * hurst_momentum_factor hurst
      let wr := mean_rev_weight * hurst_mean_rev_factor hurst
      let combined := wm * momentum_signal + wr * mean_rev_signal
      some (if symbol = "YPF" ∧ momentum_signal > momentum_threshold then
              combined * risk_multiplier
            else combined)
  | _, _ => none

/-! ## risk_management/stop_loss.py — StopLossChecker.check_exits -/

/-- Embeds `StopLossChecker.check_exits`; a zero entry price raises
`ZeroDivisionError` in the source. -/
def check_exits (current_price entry_price stop_loss take_profit : ℚ) :
    Except PyError (Option String) :=
  if entry_price = 0 then .error .zeroDivision
  else
    let returns := (current_price - entry_price) / entry_price
    .ok (if returns < -stop_loss then some "stop_loss"
         else if returns > take_profit then some "take_profit"
         else none)

/-! ## risk_management/position_sizing.py — PositionSizer.calculate_position_size -/

/-- Embeds `PositionSizer.calculate_position_size`:
`base_size = initial_investment * target_allocation`,
`signal_adjustment = min(abs(signal), max_position_increase)`,
result `base_size * signal_adjustment`. -/
def calculate_position_size (initial_investment max_position_increase
    signal target_allocation : ℚ) : ℚ :=
  (initial_investment * target_allocation) *
    min |signal| max_position_increase

/-! ## main.py — TradingSystem.process_market_data (decision kernel)

The brokerage/data fetches are the function's inputs here: the position
(`current_price`, `entry_price`, `current_qty`), the symbol's profile
fields, and the combined signal computed from the fetched bars.  The
emitted value is the list of `execute_trade` targets. -/

/-- The body of the `try:` block of `process_market_data` after the data
fetches: exit check, sizing, then the rebalance test
`abs(target_position - current_position) / current_position > 0.10`,
whose division raises `ZeroDivisionError` when the current quantity is
zero. -/
def process_market_data_result (current_price entry_price current_qty
    stop_loss take_profit signal initial_investment target_allocation
    max_position_increase : ℚ) : Except PyError (List ℚ) := do
  let exit_signal ← check_exits current_price entry_price stop_loss take_profit
  match exit_signal with
  | some _ => pure [0]
  | none =>
    let target_position :=
      calculate_position_size initial_investment max_position_increase
        signal target_allocation
    if current_qty = 0 then throw .zeroDivision
    else if |target_position - current_qty| / current_qty > 1/10 then
      pure [target_position]
    else pure []

/-- The observable behaviour of `process_market_data`: the enclosing
`except Exception` handler logs the error and submits nothing. -/
def process_market_data_orders (current_price entry_price current_qty
    stop_loss take_profit signal initial_investment target_allocation
    max_position_increase : ℚ) : List ℚ :=
  match process_market_data_result current_price entry_price current_qty
      stop_loss take_profit signal initial_investment target_allocation
      max_position_increase with
  | .ok orders => orders
  | .error _ => []

/-! ## portfolio/dynamic.py — TradingCandidates.create_trading_config -/

/-- A per-symbol risk profile (the dict values of the portfolio configs). -/
structure SymbolProfile where
  target_allocation : ℚ
  momentum_weight : ℚ
  mean_rev_weight : ℚ
  stop_loss : ℚ
  take_profit : ℚ
deriving DecidableEq, Repr

/-- The standardized profile `create_trading_config` assigns to every
selected symbol. -/
def standardTradingProfile : SymbolProfile :=
  { target_allocation := 8/100
    momentum_weight := 1/2
    mean_rev_weight := 1/2
    stop_loss := 8/100
    take_profit := 15/100 }

/-- Embeds `TradingCandidates.create_trading_config`. -/
def create_trading_config (selected : List String) :
    List (String × SymbolProfile) :=
  selected.map (fun s => (s, standardTradingProfile))

/-! ## main.py — TradingSystem._select_top_symbols / select_trading_component -/

/-- Descending-score comparison used by `sorted(scores, key=scores.get,
reverse=True)`: a NaN score (`none`) compares false against everything,
as floats do in Python. -/
def scoreGT (a b : Option ℚ) : Bool :=
  match a, b with
  | some x, some y => decide (y < x)
  | _, _ => false

/-- Stable insertion of `x` in front of the first element it strictly
beats. -/
def insertDesc (gt_ : α → α → Bool) (x : α) : List α → List α
  | [] => [x]
  | y :: ys => if gt_ x y then x :: y :: ys else y :: insertDesc gt_ x ys

/-- Deterministic stable descending sort modelling Python's `sorted`
with `reverse=True`. -/
def sortDesc (gt_ : α → α → Bool) : List α → List α
  | [] => []
  | x :: xs => insertDesc gt_ x (sortDesc gt_ xs)

/-- The selection loop of `_select_top_symbols`: walk the ranked symbols,
break once three are selected, and accept a symbol when its sector is not
yet represented or that sector counts at most one scored candidate. -/
def select_top_go (sectorOf : String → String) (counts : String → Nat) :
    List String → List String → List String → List String
  | [], selected, _ => selected
  | sym :: rest, selected, selectedSectors =>
    let sector := sectorOf sym
    if 3 ≤ selected.length then selected
    else if sector ∉ selectedSectors ∨ counts sector ≤ 1 then
      select_top_go sectorOf counts rest (selected ++ [sym])
        (sector :: selectedSectors)
    else select_top_go sectorOf counts rest selected selectedSectors

/-- Embeds `TradingSystem._select_top_symbols` up to the final
`create_trading_config` call: rank the scored symbols descending and run
the greedy sector-diverse selection. -/
def select_top_symbols (scores : List (String × Option ℚ))
    (sectorOf : String → String) (counts : String → Nat) : List String :=
  select_top_go sectorOf counts
    ((sortDesc (fun a b => scoreGT a.2 b.2) scores).map Prod.fst) [] []

/-- Embeds the score expression of `select_trading_component`:
`0.4 * momentum_signal / vol + 0.3 * (hurst - 0.5) + 0.3 * (1/vol)`,
where `(momentum_signal, vol, hurst)` is the tuple returned by
`calculate_signal` (windows 20 and 10 from `TradingConfig`).  When the
adjusted momentum or the volatility is undefined the float score is NaN,
modelled as `none`. -/
def score_of (sqrtF : ℚ → ℚ) (hurstE : List ℚ → ℚ) (prices : List ℚ) :
    Option ℚ :=
  match momentum_adjusted sqrtF 20 10 prices,
        momentum_volatility sqrtF 10 prices,
        hurstE prices with
  | some ms, some vol, hurst =>
      some ((2/5) * ms / vol + (3/10) * (hurst - 1/2) + (3/10) * (1 / vol))
  | _, _, _ => none

/-- The sector of a symbol in the candidate universe
(`trading_candidates.candidates[symbol]['sector']`); the universe is the
association list of (symbol, sector) pairs in dict order. -/
def sector_of (candidates : List (String × String)) (sym : String) : String :=
  ((candidates.find? (fun p => p.1 = sym)).map Prod.snd).getD ""

/-- The scoring loop of `select_trading_component`: every universe symbol
that passes the liquidity gate and has bar data gets its score recorded —
including an undefined (NaN) score. -/
def trading_scores (candidates : List (String × String))
    (liquidity : String → Bool) (bars : String → Option (List ℚ))
    (sqrtF : ℚ → ℚ) (hurstE : List ℚ → ℚ) : List (String × Option ℚ) :=
  candidates.filterMap (fun p =>
    if liquidity p.1 then
      (bars p.1).map (fun data => (p.1, score_of sqrtF hurstE data))
    else none)

/-- The `sector_counts` dict built alongside the scores: per sector, the
number of scored candidates. -/
def sector_counts_of (candidates : List (String × String))
    (scores : List (String × Option ℚ)) : String → Nat :=
  fun sec =>
    (scores.filter (fun p => decide (sector_of candidates p.1 = sec))).length

/-- Embeds `TradingSystem.select_trading_component`: build the scores and
sector counts, select the top symbols, and assign the standardized
trading profile to each.  The liquidity gate and the bar fetches are the
external data inputs. -/
def select_trading_component (candidates : List (String × String))
    (liquidity : String → Bool) (bars : String → Option (List ℚ))
    (sqrtF : ℚ → ℚ) (hurstE : List ℚ → ℚ) : List (String × SymbolProfile) :=
  let scores := trading_scores candidates liquidity bars sqrtF hurstE
  create_trading_config
    (select_top_symbols scores (sector_of candidates)
      (sector_counts_of candidates scores))

/-! ## Concrete evaluation data for witnesses and counterexamples -/

/-- Model instantiation of the uninterpreted square root for concrete
evaluations (any function works; claims never depend on its values). -/
def sqrtModel : ℚ → ℚ := id

/-- Model instantiation of the uninterpreted Hurst estimator for concrete
evaluations: the random-walk value 1/2. -/
def hurstModel : List ℚ → ℚ := fun _ => 1/2

/-- A 22-bar price series: twenty bars at 100 then two at 101.  Its last
20 returns average 1/2000, the sample variance of its last 10 returns is
1/100000, and its last 5 prices have mean 502/5 and variance 3/10. -/
def cprices : List ℚ := List.replicate 20 100 ++ [101, 101]

/-- A constant 30-bar price series: every return is 0, so every rolling
variance (hence volatility and standard deviation) is exactly 0. -/
def const30 : List ℚ := List.replicate 30 100

/-- Concrete scored candidates for the sector-diversity scenario:
two banking, two energy, one agriculture. -/
def scenarioScores : List (String × Option ℚ) :=
  [("GGAL", some 5), ("BMA", some 4), ("CEPU", some 3),
   ("EDN", some 2), ("AGRO", some 1)]

/-- Sector labels for the scenario candidates. -/
def scenarioSectorOf : String → String := fun s =>
  if s = "GGAL" ∨ s = "BMA" then "banking"
  else if s = "CEPU" ∨ s = "EDN" then "energy"
  else "agriculture"

/-- Scored-candidate counts per sector for the scenario. -/
def scenarioCounts : String → Nat := fun sec =>
  if sec = "banking" then 2 else if sec = "energy" then 2 else 1

/-- Number of selected symbols belonging to a given sector. -/
def sectorCount (sectorOf : String → String) (sec : String)
    (sel : List String) : Nat :=
  (sel.filter (fun s => decide (sectorOf s = sec))).length

/-!
## Theorems

Batteries marks the rational field operations `@[irreducible]`, which
blocks `decide`/`rfl` evaluation of closed rational computations; restore
the default reducibility for this verification file.
-/

attribute [local semireducible] Rat.mul Rat.add Rat.sub Rat.inv

/-- Helper: appending one symbol adds its sector to the tally. -/
theorem sectorCount_append_singleton (sectorOf : String → String) (sec : String)
    (sel : List String) (sym : String) :
    sectorCount sectorOf sec (sel ++ [sym])
      = sectorCount sectorOf sec sel + (if sectorOf sym = sec then 1 else 0) := by
  by_cases h : sectorOf sym = sec <;>
    simp [sectorCount, List.filter_append, List.filter_cons, h]

/-- Helper: the selection loop never grows the selection beyond three
symbols. -/
theorem select_top_go_length_le (sectorOf : String → String) (counts : String → Nat) :
    ∀ (l sel secs : List String),
      (select_top_go sectorOf counts l sel secs).length ≤ max sel.length 3 := by
  intro l
  induction l with
  | nil =>
    intro sel secs
    simpa [select_top_go] using Nat.le_max_left sel.length 3
  | cons sym rest ih =>
    intro sel secs
    simp only [select_top_go]
    split_ifs with hlen hacc
    · exact Nat.le_max_left sel.length 3
    · have h := ih (sel ++ [sym]) (sectorOf sym :: secs)
      simp only [List.length_append, List.length_singleton] at h
      have hmax : max (sel.length + 1) 3 = 3 := by omega
      rw [hmax] at h
      exact h.trans (Nat.le_max_right sel.length 3)
    · exact ih sel secs

/-- Helper: once a sector with at least two scored candidates is
represented in the selection, the loop never accepts a second symbol of
that sector. -/
theorem select_top_go_sector_le (sectorOf : String → String) (counts : String → Nat)
    (sec : String) (h2 : 2 ≤ counts sec) :
    ∀ (l sel secs : List String), (∀ x ∈ sel, sectorOf x ∈ secs) →
      sectorCount sectorOf sec (select_top_go sectorOf counts l sel secs)
        ≤ if sec ∈ secs then sectorCount sectorOf sec sel
          else sectorCount sectorOf sec sel + 1 := by
  intro l
  induction l with
  | nil =>
    intro sel secs _
    simp only [select_top_go]
    split <;> omega
  | cons sym rest ih =>
    intro sel secs hinv
    simp only [select_top_go]
    by_cases hlen : 3 ≤ sel.length
    · rw [if_pos hlen]
      split <;> omega
    · rw [if_neg hlen]
      by_cases hacc : sectorOf sym ∉ secs ∨ counts (sectorOf sym) ≤ 1
      · rw [if_pos hacc]
        have hinv2 : ∀ x ∈ sel ++ [sym], sectorOf x ∈ sectorOf sym :: secs := by
          intro x hx
          rcases List.mem_append.1 hx with hx | hx
          · exact List.mem_cons_of_mem _ (hinv x hx)
          · simp only [List.mem_singleton] at hx
            subst hx
            exact List.mem_cons_self _ _
        have h := ih (sel ++ [sym]) (sectorOf sym :: secs) hinv2
        rw [sectorCount_append_singleton] at h
        by_cases hmem : sec ∈ secs
        · have hne : sectorOf sym ≠ sec := by
            intro heq
            rcases hacc with hacc | hacc
            · exact hacc (heq ▸ hmem)
            · rw [heq] at hacc; omega
          have hsecs2 : sec ∈ sectorOf sym :: secs := List.mem_cons_of_mem _ hmem
          rw [if_pos hsecs2, if_neg hne] at h
          rw [if_pos hmem]
          omega
        · by_cases heq : sectorOf sym = sec
          · have hsecs2 : sec ∈ sectorOf sym :: secs :=
              heq ▸ List.mem_cons_self _ _
            rw [if_pos hsecs2, if_pos heq] at h
            rw [if_neg hmem]
            omega
          · have hsecs2 : sec ∉ sectorOf sym :: secs := by
              simp only [List.mem_cons]
              push_neg
              exact ⟨fun hx => heq (hx ▸ rfl), hmem⟩
            rw [if_neg hsecs2, if_neg heq] at h
            rw [if_neg hmem]
            omega
      · rw [if_neg hacc]
        exact ih sel secs hinv

/-- C1: in the per-tick rebalance decision with a zero current position
quantity and a non-zero computed target (target quantity 50 from capital
1000, allocation 1/20, signal 1), the evaluation does NOT emit an order:
the rebalance ratio `abs(target - current) / current` raises
`ZeroDivisionError`, which the blanket exception handler swallows, so no
trade is submitted.  This contradicts the claim that an order is emitted
with no divide-by-zero. -/
theorem process_market_data_zero_qty_no_order :
    calculate_position_size 1000 (3/2) 1 (1/20) = 50 ∧
    process_market_data_result 100 100 0 (3/20) (3/10) 1 1000 (1/20) (3/2)
      = Except.error PyError.zeroDivision ∧
    process_market_data_orders 100 100 0 (3/20) (3/10) 1 1000 (1/20) (3/2)
      = [] :=
  ⟨by decide, rfl, rfl⟩

/-- C2: the exit check computes `returns = (current - entry) / entry` and
returns "stop_loss" iff `returns < -stop_loss`, otherwise "take_profit"
iff `returns > take_profit`, otherwise no exit; with entry 100,
stop_loss 0.15, take_profit 0.30: price 84 exits by stop loss, 131 by
take profit, and 110 does not exit. -/
theorem check_exits_spec (current_price entry_price stop_loss take_profit : ℚ)
    (he : 0 < entry_price) (hs : 0 < stop_loss) (ht : 0 < take_profit) :
    ((check_exits current_price entry_price stop_loss take_profit
        = Except.ok (some "stop_loss"))
      ↔ (current_price - entry_price) / entry_price < -stop_loss) ∧
    ((check_exits current_price entry_price stop_loss take_profit
        = Except.ok (some "take_profit"))
      ↔ (¬ (current_price - entry_price) / entry_price < -stop_loss ∧
          (current_price - entry_price) / entry_price > take_profit)) ∧
    ((check_exits current_price entry_price stop_loss take_profit
        = Except.ok none)
      ↔ (¬ (current_price - entry_price) / entry_price < -stop_loss ∧
          ¬ (current_price - entry_price) / entry_price > take_profit)) ∧
    check_exits 84 100 (3/20) (3/10) = Except.ok (some "stop_loss") ∧
    check_exits 131 100 (3/20) (3/10) = Except.ok (some "take_profit") ∧
    check_exits 110 100 (3/20) (3/10) = Except.ok none := by
  have hne : entry_price ≠ 0 := ne_of_gt he
  refine ⟨?_, ?_, ?_, rfl, rfl, rfl⟩ <;>
    · simp only [check_exits, if_neg hne]
      split_ifs with h1 h2 <;> simp_all

/-- C2 witness: the characterization instantiated at entry 100,
stop_loss 0.15, take_profit 0.30 and current price 84. -/
theorem check_exits_spec_witness :
    ((check_exits 84 100 (3/20) (3/10) = Except.ok (some "stop_loss"))
      ↔ ((84 : ℚ) - 100) / 100 < -(3/20)) ∧
    ((check_exits 84 100 (3/20) (3/10) = Except.ok (some "take_profit"))
      ↔ (¬ ((84 : ℚ) - 100) / 100 < -(3/20) ∧
          ((84 : ℚ) - 100) / 100 > 3/10)) ∧
    ((check_exits 84 100 (3/20) (3/10) = Except.ok none)
      ↔ (¬ ((84 : ℚ) - 100) / 100 < -(3/20) ∧
          ¬ ((84 : ℚ) - 100) / 100 > 3/10)) ∧
    check_exits 84 100 (3/20) (3/10) = Except.ok (some "stop_loss") ∧
    check_exits 131 100 (3/20) (3/10) = Except.ok (some "take_profit") ∧
    check_exits 110 100 (3/20) (3/10) = Except.ok none :=
  check_exits_spec 84 100 (3/20) (3/10) (by norm_num) (by norm_num) (by norm_num)

/-- C3: the position sizer returns
`capital * target_allocation * min(abs(signal), max_position_increase)`;
for non-negative capital and allocation this is non-negative and at most
`max_position_increase` (1.5) times the base allocation, and capital
13000, allocation 0.35, signal 2.0 yields 6825. -/
theorem calculate_position_size_spec (capital target_allocation signal : ℚ)
    (hc : 0 ≤ capital) (ht : 0 ≤ target_allocation) :
    calculate_position_size capital (3/2) signal target_allocation
      = capital * target_allocation * min |signal| (3/2) ∧
    0 ≤ calculate_position_size capital (3/2) signal target_allocation ∧
    calculate_position_size capital (3/2) signal target_allocation
      ≤ (3/2) * (capital * target_allocation) ∧
    calculate_position_size 13000 (3/2) 2 (35/100) = 6825 := by
  refine ⟨rfl, ?_, ?_, by decide⟩
  · exact mul_nonneg (mul_nonneg hc ht)
      (le_min (abs_nonneg signal) (by norm_num))
  · calc calculate_position_size capital (3/2) signal target_allocation
        ≤ (capital * target_allocation) * (3/2) :=
          mul_le_mul_of_nonneg_left (min_le_right _ _) (mul_nonneg hc ht)
      _ = (3/2) * (capital * target_allocation) := mul_comm _ _

/-- C3 witness: the sizing law instantiated at capital 13000, allocation
0.35, signal 2. -/
theorem calculate_position_size_spec_witness :
    calculate_position_size 13000 (3/2) 2 (35/100)
      = 13000 * (35/100) * min |(2 : ℚ)| (3/2) ∧
    0 ≤ calculate_position_size 13000 (3/2) 2 (35/100) ∧
    calculate_position_size 13000 (3/2) 2 (35/100)
      ≤ (3/2) * (13000 * (35/100)) ∧
    calculate_position_size 13000 (3/2) 2 (35/100) = 6825 :=
  calculate_position_size_spec 13000 (35/100) 2 (by norm_num) (by norm_num)

/-- C4: the signal blender re-weights exactly by
`momentum_weight * (H if H > 0.5 else 1-H)` and
`mean_rev_weight * (1-H if H > 0.5 else H)` and combines the weighted
signals linearly (the YPF amplification being a separate multiplicative
factor); at H = 1/2 each effective weight equals half its profile
weight. -/
theorem combined_signal_weight_rescaling (sqrtF : ℚ → ℚ)
    (hurstE : List ℚ → ℚ) (prices : List ℚ) (symbol : String)
    (momentum_weight mean_rev_weight risk_multiplier momentum_threshold M R : ℚ)
    (hM : momentum_adjusted sqrtF 20 10 prices = some M)
    (hR : mean_rev_get_signal sqrtF 5 prices (-(3/2)) = some R) :
    calculate_combined_signal sqrtF hurstE 20 10 5 prices symbol
        momentum_weight mean_rev_weight risk_multiplier momentum_threshold
      = some ((if symbol = "YPF" ∧ M > momentum_threshold
                then risk_multiplier else 1) *
          (momentum_weight * hurst_momentum_factor (hurstE prices) * M
            + mean_rev_weight * hurst_mean_rev_factor (hurstE prices) * R)) ∧
    momentum_weight * hurst_momentum_factor (1/2) = 1/2 * momentum_weight ∧
    mean_rev_weight * hurst_mean_rev_factor (1/2) = 1/2 * mean_rev_weight := by
  refine ⟨?_, ?_, ?_⟩
  · simp only [calculate_combined_signal, hM, hR]
    split_ifs with h
    · rw [mul_comm]
    · rw [one_mul]
  · norm_num [hurst_momentum_factor, mul_comm]
  · norm_num [hurst_mean_rev_factor, mul_comm]

/-- C4 witness: the re-weighting law instantiated on the concrete series
`cprices` with model analyzers (adjusted momentum 25/126, reversion
signal -2, Hurst 1/2) for a non-YPF symbol with equal half weights. -/
theorem combined_signal_weight_rescaling_witness :
    calculate_combined_signal sqrtModel hurstModel 20 10 5 cprices "GGAL"
        (1/2) (1/2) (6/5) (1/50)
      = some ((if ("GGAL" : String) = "YPF" ∧ (25/126 : ℚ) > 1/50
                then (6/5 : ℚ) else 1) *
          ((1/2) * hurst_momentum_factor (hurstModel cprices) * (25/126)
            + (1/2) * hurst_mean_rev_factor (hurstModel cprices) * (-2))) ∧
    (1/2 : ℚ) * hurst_momentum_factor (1/2) = 1/2 * (1/2) ∧
    (1/2 : ℚ) * hurst_mean_rev_factor (1/2) = 1/2 * (1/2) :=
  combined_signal_weight_rescaling sqrtModel hurstModel cprices "GGAL"
    (1/2) (1/2) (6/5) (1/50) (25/126) (-2) (by decide) (by decide)

/-- C5: on a constant 30-bar price series the rolling volatility of the
momentum analyzer and the rolling standard deviation of the mean-reversion
analyzer are exactly 0 at the latest point, and both signal computations
yield an undefined float (NaN from 0/0, modelled `none`) rather than the
neutral value 0 the specification requires. -/
theorem zero_volatility_signals_undefined :
    momentum_volatility sqrtModel 10 const30 = some 0 ∧
    momentum_adjusted sqrtModel 20 10 const30 = none ∧
    rollingVarLast 5 (const30.map some) = some 0 ∧
    mean_rev_get_signal sqrtModel 5 const30 (-(3/2)) = none ∧
    momentum_adjusted sqrtModel 20 10 const30 ≠ some 0 ∧
    mean_rev_get_signal sqrtModel 5 const30 (-(3/2)) ≠ some 0 := by
  decide

/-- C6 counterexample: on `cprices` the raw (pre-volatility-adjustment)
rolling momentum is 1/2000, which does not exceed the threshold 1/50, yet
the combined YPF signal is the risk-multiplied value -227/420 instead of
the unmultiplied blend -227/504 — because the code's trigger compares the
volatility-adjusted momentum 25/126, which does exceed 1/50. -/
theorem ypf_trigger_uses_adjusted_momentum_cex :
    rollingMeanLast 20 (pct_change cprices) = some (1/2000) ∧
    ¬ ((1/2000 : ℚ) > 1/50) ∧
    momentum_adjusted sqrtModel 20 10 cprices = some (25/126) ∧
    ((25/126 : ℚ) > 1/50) ∧
    calculate_combined_signal sqrtModel hurstModel 20 10 5 cprices "YPF"
        (1/2) (1/2) (6/5) (1/50) = some (-227/420) ∧
    (1/2 : ℚ) * hurst_momentum_factor (hurstModel cprices) * (25/126)
        + (1/2) * hurst_mean_rev_factor (hurstModel cprices) * (-2)
      = -227/504 ∧
    (-227/420 : ℚ) ≠ -227/504 := by
  decide

/-- C6 (amended): the combined signal is multiplied by `risk_multiplier`
exactly when the symbol is "YPF" and the VOLATILITY-ADJUSTED momentum
signal (the first component returned by `calculate_signal`, i.e. rolling
momentum divided by volatility) exceeds `momentum_threshold`; for every
other symbol, and for YPF otherwise, the blend is returned unmultiplied. -/
theorem ypf_trigger_adjusted_momentum (sqrtF : ℚ → ℚ) (hurstE : List ℚ → ℚ)
    (prices : List ℚ) (symbol : String)
    (momentum_weight mean_rev_weight risk_multiplier momentum_threshold M R : ℚ)
    (hM : momentum_adjusted sqrtF 20 10 prices = some M)
    (hR : mean_rev_get_signal sqrtF 5 prices (-(3/2)) = some R) :
    calculate_combined_signal sqrtF hurstE 20 10 5 prices symbol
        momentum_weight mean_rev_weight risk_multiplier momentum_threshold
      = some (if symbol = "YPF" ∧ M > momentum_threshold then
            (momentum_weight * hurst_momentum_factor (hurstE prices) * M
              + mean_rev_weight * hurst_mean_rev_factor (hurstE prices) * R)
              * risk_multiplier
          else
            momentum_weight * hurst_momentum_factor (hurstE prices) * M
              + mean_rev_weight * hurst_mean_rev_factor (hurstE prices) * R) := by
  simp only [calculate_combined_signal, hM, hR]

/-- C6 witness: the amended trigger rule instantiated at the concrete
series `cprices` for YPF, where the adjusted momentum 25/126 exceeds the
threshold and the blend is multiplied by 6/5. -/
theorem ypf_trigger_adjusted_momentum_witness :
    calculate_combined_signal sqrtModel hurstModel 20 10 5 cprices "YPF"
        (1/2) (1/2) (6/5) (1/50)
      = some (if ("YPF" : String) = "YPF" ∧ (25/126 : ℚ) > 1/50 then
            ((1/2) * hurst_momentum_factor (hurstModel cprices) * (25/126)
              + (1/2) * hurst_mean_rev_factor (hurstModel cprices) * (-2))
              * (6/5)
          else
            (1/2) * hurst_momentum_factor (hurstModel cprices) * (25/126)
              + (1/2) * hurst_mean_rev_factor (hurstModel cprices) * (-2)) :=
  ypf_trigger_adjusted_momentum sqrtModel hurstModel cprices "YPF"
    (1/2) (1/2) (6/5) (1/50) (25/126) (-2) (by decide) (by decide)

/-- C7 counterexample: on `cprices` the rolling momentum is 1/2000, the
volatility 63/25000 and the Hurst exponent 1/2, yet the recorded score
597500/3969 differs from the claimed
`0.4 * (m/v) + 0.3 * (H - 0.5) + 0.3 * (1/v)` (which is 7505/63): the
code divides the already risk-adjusted momentum by the volatility a
second time. -/
theorem score_double_division_cex :
    rollingMeanLast 20 (pct_change cprices) = some (1/2000) ∧
    momentum_volatility sqrtModel 10 cprices = some (63/25000) ∧
    ((63/25000 : ℚ) ≠ 0) ∧
    hurstModel cprices = 1/2 ∧
    score_of sqrtModel hurstModel cprices = some (597500/3969) ∧
    ((597500/3969 : ℚ)
      ≠ (2/5) * ((1/2000) / (63/25000)) + (3/10) * (1/2 - 1/2)
          + (3/10) * (1 / (63/25000))) := by
  decide

/-- C7 (amended): for a surviving candidate with rolling momentum m,
volatility v ≠ 0 and Hurst exponent H, the selection score equals
`0.4 * (m/v)/v + 0.3 * (H - 0.5) + 0.3 * (1/v)` — the risk-adjusted
momentum m/v is divided by the volatility a second time; and a candidate
whose volatility is exactly 0 is not excluded: it is recorded in the
score map with an undefined (NaN) score. -/
theorem score_formula_amended (sqrtF : ℚ → ℚ) (hurstE : List ℚ → ℚ)
    (prices : List ℚ) (m v : ℚ)
    (hm : rollingMeanLast 20 (pct_change prices) = some m)
    (hv : momentum_volatility sqrtF 10 prices = some v)
    (hv0 : v ≠ 0) :
    score_of sqrtF hurstE prices
      = some ((2/5) * (m / v) / v + (3/10) * (hurstE prices - 1/2)
          + (3/10) * (1 / v)) ∧
    (∀ prices0, momentum_volatility sqrtF 10 prices0 = some 0 →
      score_of sqrtF hurstE prices0 = none) ∧
    trading_scores [("AGRO", "agriculture")] (fun _ => true)
        (fun _ => some const30) sqrtModel hurstModel = [("AGRO", none)] := by
  refine ⟨?_, ?_, by decide⟩
  · have hadj : momentum_adjusted sqrtF 20 10 prices = some (m / v) := by
      simp only [momentum_adjusted, hm, hv, if_neg hv0]
    simp only [score_of, hadj, hv]
  · intro prices0 h0
    have hadj : momentum_adjusted sqrtF 20 10 prices0 = none := by
      cases hm0 : rollingMeanLast 20 (pct_change prices0) <;>
        simp [momentum_adjusted, hm0, h0]
    simp [score_of, hadj]

/-- C7 witness: the amended score law instantiated on `cprices` with the
model analyzers (momentum 1/2000, volatility 63/25000, Hurst 1/2). -/
theorem score_formula_amended_witness :
    score_of sqrtModel hurstModel cprices
      = some ((2/5) * ((1/2000) / (63/25000)) / (63/25000)
          + (3/10) * (hurstModel cprices - 1/2) + (3/10) * (1 / (63/25000))) ∧
    (∀ prices0, momentum_volatility sqrtModel 10 prices0 = some 0 →
      score_of sqrtModel hurstModel prices0 = none) ∧
    trading_scores [("AGRO", "agriculture")] (fun _ => true)
        (fun _ => some const30) sqrtModel hurstModel = [("AGRO", none)] :=
  score_formula_amended sqrtModel hurstModel cprices (1/2000) (63/25000)
    (by decide) (by decide) (by decide)

/-- C8: the greedy selection over descending-ranked scores accepts at
most one symbol of any sector with at least two scored candidates — in
particular at most one "banking" and at most one "energy" symbol in the
5-candidate scenario — and never selects more than 3 symbols. -/
theorem sector_diversity_selection (scores : List (String × Option ℚ))
    (sectorOf : String → String) (counts : String → Nat)
    (hb : 2 ≤ counts "banking") (he : 2 ≤ counts "energy") :
    sectorCount sectorOf "banking"
        (select_top_symbols scores sectorOf counts) ≤ 1 ∧
    sectorCount sectorOf "energy"
        (select_top_symbols scores sectorOf counts) ≤ 1 ∧
    (select_top_symbols scores sectorOf counts).length ≤ 3 := by
  unfold select_top_symbols
  refine ⟨?_, ?_, ?_⟩
  · have h := select_top_go_sector_le sectorOf counts "banking" hb
      ((sortDesc (fun a b => scoreGT a.2 b.2) scores).map Prod.fst) [] []
      (by intro x hx; cases hx)
    simpa [sectorCount] using h
  · have h := select_top_go_sector_le sectorOf counts "energy" he
      ((sortDesc (fun a b => scoreGT a.2 b.2) scores).map Prod.fst) [] []
      (by intro x hx; cases hx)
    simpa [sectorCount] using h
  · have h := select_top_go_length_le sectorOf counts
      ((sortDesc (fun a b => scoreGT a.2 b.2) scores).map Prod.fst) [] []
    simpa using h

/-- C8 witness: the sector-diversity bound instantiated on the concrete
5-candidate scenario {banking, banking, energy, energy, agriculture}. -/
theorem sector_diversity_selection_witness :
    sectorCount scenarioSectorOf "banking"
        (select_top_symbols scenarioScores scenarioSectorOf scenarioCounts) ≤ 1 ∧
    sectorCount scenarioSectorOf "energy"
        (select_top_symbols scenarioScores scenarioSectorOf scenarioCounts) ≤ 1 ∧
    (select_top_symbols scenarioScores scenarioSectorOf scenarioCounts).length ≤ 3 :=
  sector_diversity_selection scenarioScores scenarioSectorOf scenarioCounts
    (by decide) (by decide)

/-- C9: candidate selection is a deterministic function of its per-symbol
input data (liquidity results, bars) — re-running it yields the identical
trading sleeve — and every selected symbol carries the identical
standardized profile {target_allocation 0.08, momentum_weight 0.5,
mean_rev_weight 0.5, stop_loss 0.08, take_profit 0.15}. -/
theorem select_trading_component_deterministic
    (candidates : List (String × String)) (liquidity : String → Bool)
    (bars : String → Option (List ℚ)) (sqrtF : ℚ → ℚ)
    (hurstE : List ℚ → ℚ) :
    select_trading_component candidates liquidity bars sqrtF hurstE
      = select_trading_component candidates liquidity bars sqrtF hurstE ∧
    (select_trading_component candidates liquidity bars sqrtF hurstE).all
        (fun p => decide (p.2 = standardTradingProfile)) = true := by
  refine ⟨rfl, ?_⟩
  simp [select_trading_component, create_trading_config, List.all_map,
    Function.comp]

/-- C10: the mean-reversion signal does not depend on its `zscore_entry`
parameter: any two entry thresholds yield identical signals on every
price series. -/
theorem mean_rev_signal_ignores_zscore_entry (sqrtF : ℚ → ℚ) (window : Nat)
    (prices : List ℚ) (e1 e2 : ℚ) :
    mean_rev_get_signal sqrtF window prices e1
      = mean_rev_get_signal sqrtF window prices e2 := rfl
